import Mathlib

/-!
Verification of the data loading and transformation pipeline of a
COVID-19 dashboard (src/app.py).

The pandas DataFrame of country-date observations is embedded as a
`List Record`; dates are day indices (`Nat`), numeric metric columns are
`Option ℚ` (absence models NaN).  Each definition below mirrors one
source construct:

* `filterByCountryAndRange`  — the boolean-mask row filter (app.py:56-60)
* `normalizeRange`           — the tuple/scalar date-range normalization (app.py:54)
* `sortByDate`               — `df.sort_values("date")` (modelled by a stable
                               insertion sort; the claims proved about it are
                               invariant under the choice of sorting algorithm)
* `latestPerLocation`        — `df.sort_values("date").groupby("location").last()`
                               (app.py:89); note pandas `GroupBy.last` takes the
                               last NON-NULL entry of each column separately
* `topNByMetric`             — dropna / exclude / sort descending / head n
                               (app.py:92-93)
* `pairedMetrics`            — column select / dropna / exclude (app.py:104-108)
* `formatMetric`             — the KPI f-string formatting (app.py:75-77)
* `load_data`                — the sequential fetch-with-fallback loop (app.py:14-29)
* `renderCycle`              — the per-render control flow with the
                               empty-result guard (app.py:56-121)
-/

namespace CovidDash

/-- One country-date observation row of the DataFrame.  Numeric columns are
optional: `none` models a NaN cell. -/
structure Record where
  location : String
  date : Nat
  total_cases : Option ℚ
  total_deaths : Option ℚ
  total_deaths_per_million : Option ℚ
  people_fully_vaccinated_per_hundred : Option ℚ
deriving DecidableEq

abbrev Dataset := List Record

/-- app.py:56-60 — `df[(df["location"] == c) & (df["date"] >= s) & (df["date"] <= e)]`. -/
def filterByCountryAndRange (ds : Dataset) (country : String) (s e : Nat) : Dataset :=
  ds.filter (fun r => r.location == country && decide (s ≤ r.date) && decide (r.date ≤ e))

/-- The value returned by the date-range widget: either a pair or a single date. -/
inductive DateRange where
  | single (d : Nat)
  | pair (s e : Nat)
deriving DecidableEq

/-- app.py:54 — `start_date, end_date = date_range if isinstance(date_range, tuple)
else (date_range, date_range)`. -/
def normalizeRange : DateRange → Nat × Nat
  | .single d => (d, d)
  | .pair s e => (s, e)

/-- The filter as actually invoked: widget value first normalized, then applied. -/
def filterWithRange (ds : Dataset) (country : String) (dr : DateRange) : Dataset :=
  filterByCountryAndRange ds country (normalizeRange dr).1 (normalizeRange dr).2

/-- C1 witness data: a three-row dataset over two locations. -/
def exDs : Dataset :=
  [ { location := "India", date := 3, total_cases := some 100, total_deaths := some 2,
      total_deaths_per_million := some 1, people_fully_vaccinated_per_hundred := none },
    { location := "India", date := 7, total_cases := some 200, total_deaths := none,
      total_deaths_per_million := some 2, people_fully_vaccinated_per_hundred := some 55 },
    { location := "Brazil", date := 5, total_cases := some 50, total_deaths := some 1,
      total_deaths_per_million := some 3, people_fully_vaccinated_per_hundred := some 40 } ]

/-- C1: a record of the dataset is kept by the filter iff its location matches and
its date lies in the inclusive range. -/
theorem filter_mem_iff (ds : Dataset) (country : String) (s e : Nat)
    (r : Record) (h : r ∈ ds) :
    r ∈ filterByCountryAndRange ds country s e ↔
      (r.location = country ∧ s ≤ r.date ∧ r.date ≤ e) := by
  simp [filterByCountryAndRange, List.mem_filter, h, and_assoc]

/-- C1 witness: the middle record of `exDs` is kept by the filter for India over [3,7]. -/
theorem filter_mem_iff_witness :
    exDs[1] ∈ exDs ∧
      (exDs[1] ∈ filterByCountryAndRange exDs "India" 3 7 ↔
        (exDs[1].location = "India" ∧ 3 ≤ exDs[1].date ∧ exDs[1].date ≤ 7)) :=
  ⟨by decide, filter_mem_iff exDs "India" 3 7 exDs[1] (by decide)⟩

/-- C10: a single-date widget value is treated as the degenerate inclusive range
(d, d), so the filtered view is exactly the selected country's rows dated d. -/
theorem filter_single_date (ds : Dataset) (country : String) (d : Nat) :
    filterWithRange ds country (DateRange.single d) =
      ds.filter (fun r => r.location == country && r.date == d) := by
  unfold filterWithRange normalizeRange filterByCountryAndRange
  apply List.filter_congr
  intro r _
  apply Bool.eq_iff_iff.mpr
  simp only [Bool.and_eq_true, decide_eq_true_eq, beq_iff_eq]
  constructor
  · rintro ⟨⟨h1, h2⟩, h3⟩
    exact ⟨h1, Nat.le_antisymm h3 h2⟩
  · rintro ⟨h1, h2⟩
    exact ⟨⟨h1, h2.ge⟩, h2.le⟩

/-- Row comparison used by `df.sort_values("date")`. -/
def dateLe (a b : Record) : Prop := a.date ≤ b.date

instance : DecidableRel dateLe := fun a b => Nat.decLe a.date b.date

instance : IsTotal Record dateLe := ⟨fun a b => Nat.le_total a.date b.date⟩

instance : IsTrans Record dateLe := ⟨fun _ _ _ h1 h2 => Nat.le_trans h1 h2⟩

/-- app.py:66,89 — `df.sort_values("date")`.  Modelled by a sorting algorithm
(stable insertion sort); every property proved below is invariant under which
sorted permutation the library returns. -/
def sortByDate (ds : Dataset) : Dataset := List.insertionSort dateLe ds

/-- Fallback row (never observed: only used where the list is proven nonempty). -/
def dummyRec : Record :=
  { location := "", date := 0, total_cases := none, total_deaths := none,
    total_deaths_per_million := none, people_fully_vaccinated_per_hundred := none }

/-- The last non-null entry of a column, pandas `GroupBy.last` semantics
(`none` only when the whole column slice is null). -/
def lastSome (xs : List (Option ℚ)) : Option ℚ :=
  xs.foldl (fun acc x => match x with | some v => some v | none => acc) none

/-- One output row of `groupby("location").last()`: per COLUMN, the last
non-null value within the group (the date column is never null, so its entry
is simply the last row's date). -/
def groupLastRow (l : String) (rows : List Record) : Record :=
  { location := l
    date := (rows.getLastD dummyRec).date
    total_cases := lastSome (rows.map Record.total_cases)
    total_deaths := lastSome (rows.map Record.total_deaths)
    total_deaths_per_million := lastSome (rows.map Record.total_deaths_per_million)
    people_fully_vaccinated_per_hundred :=
      lastSome (rows.map Record.people_fully_vaccinated_per_hundred) }

/-- app.py:89 — `df.sort_values("date").groupby("location").last().reset_index()`. -/
def latestPerLocation (ds : Dataset) : Dataset :=
  (((sortByDate ds).map Record.location).dedup).map
    (fun l => groupLastRow l ((sortByDate ds).filter (fun r => r.location == l)))

/-- In a date-sorted row list, every element's date is at most the last element's. -/
theorem date_le_getLastD :
    ∀ xs : List Record, List.Sorted dateLe xs →
      ∀ x ∈ xs, ∀ d : Record, x.date ≤ (xs.getLastD d).date := by
  intro xs
  induction xs with
  | nil => intro _ x hx; cases hx
  | cons a t ih =>
    intro hs x hx d
    rw [List.getLastD_cons]
    rcases List.mem_cons.mp hx with rfl | hxt
    · cases t with
      | nil => exact Nat.le_refl _
      | cons b t2 =>
        have he : (b :: t2).getLastD x = (b :: t2).getLast (List.cons_ne_nil b t2) := by
          rw [List.getLastD_cons, List.getLast_eq_getLastD]
        have hmem : (b :: t2).getLastD x ∈ b :: t2 := he ▸ List.getLast_mem _
        exact (List.sorted_cons.mp hs).1 _ hmem
    · exact ih (List.sorted_cons.mp hs).2 x hxt a

/-- The `getLastD` of a nonempty list is one of its elements. -/
theorem getLastD_mem_of_ne_nil :
    ∀ (xs : List Record) (d : Record), xs ≠ [] → xs.getLastD d ∈ xs := by
  intro xs d hne
  cases xs with
  | nil => exact absurd rfl hne
  | cons a t =>
    have he : (a :: t).getLastD d = (a :: t).getLast (List.cons_ne_nil a t) := by
      rw [List.getLastD_cons, List.getLast_eq_getLastD]
    exact he ▸ List.getLast_mem _

/-- A nodup list containing `a` has exactly one entry equal to `a`. -/
theorem countP_beq_eq_one_of_nodup {l : List String} {a : String}
    (hnd : l.Nodup) (ha : a ∈ l) : l.countP (fun x => x == a) = 1 := by
  induction l with
  | nil => cases ha
  | cons b t ih =>
    rw [List.countP_cons]
    rcases List.mem_cons.mp ha with rfl | hat
    · have h0 : t.countP (fun x => x == a) = 0 := by
        apply List.countP_eq_zero.mpr
        intro x hx
        simp only [beq_iff_eq]
        rintro rfl
        exact (List.nodup_cons.mp hnd).1 hx
      simp [h0]
    · have hba : ((b == a) = true) → False := by
        simp only [beq_iff_eq]
        rintro rfl
        exact (List.nodup_cons.mp hnd).1 hat
      rw [ih (List.nodup_cons.mp hnd).2 hat, if_neg hba]

/-- C2 counterexample data: the chronologically last row of location A has a
null `total_cases`, an earlier row has a value. -/
def cDs : Dataset :=
  [ { location := "A", date := 1, total_cases := some 5, total_deaths := none,
      total_deaths_per_million := none, people_fully_vaccinated_per_hundred := none },
    { location := "A", date := 2, total_cases := none, total_deaths := none,
      total_deaths_per_million := none, people_fully_vaccinated_per_hundred := none } ]

/-- C2 (amended): every location present in the dataset has exactly one row in
`latestPerLocation`, and that row's date is the maximum date among the
location's records (attained by one of them).  The row itself, however, is a
per-column aggregate and need not equal any original record. -/
theorem latestPerLocation_correct (ds : Dataset) (l : String)
    (h : l ∈ ds.map Record.location) :
    (latestPerLocation ds).countP (fun r => r.location == l) = 1 ∧
    ∀ r ∈ latestPerLocation ds, r.location = l →
      (∃ t ∈ ds, t.location = l ∧ t.date = r.date) ∧
      (∀ t ∈ ds, t.location = l → t.date ≤ r.date) := by
  have hperm : List.Perm (sortByDate ds) ds := List.perm_insertionSort dateLe ds
  have hsort : List.Sorted dateLe (sortByDate ds) := List.sorted_insertionSort dateLe ds
  have hl_s : l ∈ (sortByDate ds).map Record.location :=
    ((hperm.map Record.location).mem_iff).mpr h
  have hlL : l ∈ ((sortByDate ds).map Record.location).dedup := List.mem_dedup.mpr hl_s
  constructor
  · rw [latestPerLocation, List.countP_map]
    have hcomp :
        ((fun r : Record => r.location == l) ∘
          fun x => groupLastRow x ((sortByDate ds).filter (fun r => r.location == x))) =
        (fun x => x == l) := rfl
    rw [hcomp]
    exact countP_beq_eq_one_of_nodup (List.nodup_dedup _) hlL
  · intro r hr hrloc
    rw [latestPerLocation] at hr
    obtain ⟨x, hxmem, hfeq⟩ := List.mem_map.mp hr
    have hxl : x = l := by
      have : (groupLastRow x ((sortByDate ds).filter (fun r => r.location == x))).location = x := rfl
      rw [← hfeq, this] at hrloc
      exact hrloc
    subst hxl
    obtain ⟨a, has, haloc⟩ := List.mem_map.mp (List.mem_dedup.mp hxmem)
    have hamem : a ∈ (sortByDate ds).filter (fun r => r.location == x) :=
      List.mem_filter.mpr ⟨has, by simp [haloc]⟩
    have hne : (sortByDate ds).filter (fun r => r.location == x) ≠ [] :=
      List.ne_nil_of_mem hamem
    have hrowsSorted : List.Sorted dateLe ((sortByDate ds).filter (fun r => r.location == x)) :=
      List.Pairwise.filter _ hsort
    have hg : ((sortByDate ds).filter (fun r => r.location == x)).getLastD dummyRec ∈
        (sortByDate ds).filter (fun r => r.location == x) :=
      getLastD_mem_of_ne_nil _ dummyRec hne
    have hrdate :
        r.date = (((sortByDate ds).filter (fun r => r.location == x)).getLastD dummyRec).date := by
      rw [← hfeq]; rfl
    obtain ⟨hgs, hgloc⟩ := List.mem_filter.mp hg
    constructor
    · refine ⟨_, hperm.mem_iff.mp hgs, ?_, hrdate.symm⟩
      exact beq_iff_eq.mp hgloc
    · intro t htds htloc
      have hts : t ∈ sortByDate ds := hperm.mem_iff.mpr htds
      have htrows : t ∈ (sortByDate ds).filter (fun r => r.location == x) :=
        List.mem_filter.mpr ⟨hts, by simp [htloc]⟩
      rw [hrdate]
      exact date_le_getLastD _ hrowsSorted t htrows dummyRec

/-- C2 witness: concrete evaluation on `exDs` for the location India. -/
theorem latestPerLocation_correct_witness :
    ("India" ∈ exDs.map Record.location) ∧
      ((latestPerLocation exDs).countP (fun r => r.location == "India") = 1 ∧
        ∀ r ∈ latestPerLocation exDs, r.location = "India" →
          (∃ t ∈ exDs, t.location = "India" ∧ t.date = r.date) ∧
          (∀ t ∈ exDs, t.location = "India" → t.date ≤ r.date)) :=
  ⟨by decide, latestPerLocation_correct exDs "India" (by decide)⟩

/-- The composite row `groupby.last` produces on `cDs`: the max date together
with the earlier row's `total_cases` value. -/
def cRow : Record :=
  { location := "A", date := 2, total_cases := some 5, total_deaths := none,
    total_deaths_per_million := none, people_fully_vaccinated_per_hundred := none }

/-- C2 counterexample: on `cDs`, the single output row of `latestPerLocation`
equals no original record — pandas `GroupBy.last` fills each column with that
column's last non-null value, mixing values from different rows. -/
theorem latestPerLocation_row_not_original :
    latestPerLocation cDs = [cRow] ∧ cRow ∉ cDs := by decide

/-- Sort key of a row for a metric column (only applied after dropna, so the
default value is never observed). -/
def keyOf (metric : Record → Option ℚ) (r : Record) : ℚ := (metric r).getD 0

/-- Row comparison of `sort_values(metric, ascending=False)`. -/
def metricGe (metric : Record → Option ℚ) (a b : Record) : Prop :=
  keyOf metric b ≤ keyOf metric a

instance (metric : Record → Option ℚ) : DecidableRel (metricGe metric) :=
  fun a b => inferInstanceAs (Decidable (keyOf metric b ≤ keyOf metric a))

instance (metric : Record → Option ℚ) : IsTotal Record (metricGe metric) :=
  ⟨fun a b => le_total (keyOf metric b) (keyOf metric a)⟩

instance (metric : Record → Option ℚ) : IsTrans Record (metricGe metric) :=
  ⟨fun _ _ _ h1 h2 => le_trans h2 h1⟩

/-- app.py:92-93 — `latest_all.dropna(subset=[metric])`, exclude locations,
`sort_values(metric, ascending=False).head(n)` (source instance: metric =
total_deaths_per_million, n = 10, excluded = ["World"]). -/
def topNByMetric (snap : List Record) (metric : Record → Option ℚ) (n : Nat)
    (excl : List String) : List Record :=
  (List.insertionSort (metricGe metric)
    (((snap.filter (fun r => (metric r).isSome)).filter
      (fun r => !(excl.contains r.location))))).take n

/-- app.py:104-108 — select the two metric columns and the location, `dropna()`,
then drop excluded locations; one (x, y, location) triple per surviving row
(source instance: x = vaccination rate, y = deaths per million,
excluded = ["World"]). -/
def pairedMetrics (snap : List Record) (mX mY : Record → Option ℚ)
    (excl : List String) : List (ℚ × ℚ × String) :=
  (((snap.filter (fun r => (mX r).isSome && (mY r).isSome)).filter
      (fun r => !(excl.contains r.location))).map
    (fun r => ((mX r).getD 0, (mY r).getD 0, r.location)))

/-- C5: top-N returns at most n rows, only rows with a present metric and a
non-excluded location, and is sorted non-increasingly by the metric value. -/
theorem topNByMetric_correct (snap : List Record) (metric : Record → Option ℚ)
    (n : Nat) (excl : List String) :
    (topNByMetric snap metric n excl).length ≤ n ∧
    (∀ r ∈ topNByMetric snap metric n excl,
      (metric r).isSome = true ∧ r.location ∉ excl) ∧
    List.Sorted (metricGe metric) (topNByMetric snap metric n excl) := by
  refine ⟨List.length_take_le n _, ?_, ?_⟩
  · intro r hr
    have hmem : r ∈ List.insertionSort (metricGe metric)
        ((snap.filter (fun r => (metric r).isSome)).filter
          (fun r => !(excl.contains r.location))) :=
      List.take_subset n _ hr
    have hmem2 := (List.mem_insertionSort (metricGe metric)).mp hmem
    obtain ⟨hmem3, hloc⟩ := List.mem_filter.mp hmem2
    obtain ⟨_, hsome⟩ := List.mem_filter.mp hmem3
    refine ⟨hsome, ?_⟩
    intro hcontra
    rw [Bool.not_eq_true'] at hloc
    have hc : excl.contains r.location = true := List.elem_iff.mpr hcontra
    rw [hloc] at hc
    cases hc
  · exact List.Pairwise.sublist (List.take_sublist n _)
      (List.sorted_insertionSort (metricGe metric) _)

/-- C5 witness: concrete evaluation of the three conjuncts on `exDs` as the snapshot. -/
theorem topNByMetric_correct_witness :
    (topNByMetric exDs Record.total_deaths_per_million 2 ["World"]).length ≤ 2 ∧
    (∀ r ∈ topNByMetric exDs Record.total_deaths_per_million 2 ["World"],
      (Record.total_deaths_per_million r).isSome = true ∧ r.location ∉ ["World"]) ∧
    List.Sorted (metricGe Record.total_deaths_per_million)
      (topNByMetric exDs Record.total_deaths_per_million 2 ["World"]) :=
  topNByMetric_correct exDs Record.total_deaths_per_million 2 ["World"]

/-- C9: `pairedMetrics` keeps exactly the rows with both metrics present and a
non-excluded location, and maps each surviving row to its (x, y, location)
triple, in order. -/
theorem pairedMetrics_correct (snap : List Record) (mX mY : Record → Option ℚ)
    (excl : List String) :
    pairedMetrics snap mX mY excl =
      (snap.filter (fun r =>
          ((mX r).isSome && (mY r).isSome) && !(excl.contains r.location))).map
        (fun r => ((mX r).getD 0, (mY r).getD 0, r.location)) := by
  rw [pairedMetrics, List.filter_filter]
  congr 1
  apply List.filter_congr
  intro a _
  exact Bool.and_comm _ _

/-- Presentation kind of a KPI value: `f"{int(x):,}"` vs `f"{x:.1f}"`. -/
inductive MetricKind where
  | integer
  | percentage
deriving DecidableEq

/-- Python `int(x)`: truncation toward zero (T-division of the numerator by
the denominator). -/
def pyInt (q : ℚ) : Int := q.num.tdiv (q.den : Int)

/-- Insert a comma after every three characters of a reversed digit list. -/
def commaRev : List Char → List Char
  | [] => []
  | [a] => [a]
  | [a, b] => [a, b]
  | [a, b, c] => [a, b, c]
  | a :: b :: c :: d :: rest => a :: b :: c :: ',' :: commaRev (d :: rest)

/-- Thousands grouping of a natural number, as the `:,` f-string format. -/
def groupNat (n : Nat) : String := String.mk ((commaRev (toString n).toList.reverse).reverse)

/-- `10 * q` rounded to the nearest integer with ties to even — the rounding
performed by the host float formatting on exactly representable values.
Computed on the numerator and denominator with floor division: with
`n = 10 * q.num`, `d = q.den`, the floor of `10 * q` is `n.fdiv d` and the
fractional part is `(n.fmod d) / d`, compared against one half. -/
def round1 (q : ℚ) : Int :=
  if 2 * ((q.num * 10).fmod (q.den : Int)) < (q.den : Int) then
    (q.num * 10).fdiv (q.den : Int)
  else if (q.den : Int) < 2 * ((q.num * 10).fmod (q.den : Int)) then
    (q.num * 10).fdiv (q.den : Int) + 1
  else if ((q.num * 10).fdiv (q.den : Int)) % 2 = 0 then
    (q.num * 10).fdiv (q.den : Int)
  else
    (q.num * 10).fdiv (q.den : Int) + 1

/-- Python `f"{q:.1f}"` on an exactly representable value. -/
def formatFix1 (q : ℚ) : String :=
  (if round1 q < 0 then "-" else "") ++
    toString ((round1 q).natAbs / 10) ++ "." ++
    toString ((round1 q).natAbs % 10)

/-- app.py:75-77 — KPI cell text: thousands-grouped `int(x)` for count metrics,
one-decimal rendering for the percentage metric, and the "N/A" sentinel
whenever `pd.notna(x)` is false. -/
def formatMetric (v : Option ℚ) (k : MetricKind) : String :=
  match v with
  | none => "N/A"
  | some q =>
    match k with
    | .integer => (if pyInt q < 0 then "-" else "") ++ groupNat (pyInt q).natAbs
    | .percentage => formatFix1 q

/-- The rational 87.25 = 349/4, written as an explicit normalized fraction. -/
def q87_25 : ℚ := ⟨349, 4, by decide, by decide⟩

/-- C8: integer metrics are thousands-grouped, the percentage metric renders to
one decimal under round-half-even (87.25 → "87.2"), and a missing value of
either kind renders as "N/A". -/
theorem formatMetric_spec :
    formatMetric (some 1234567) MetricKind.integer = "1,234,567" ∧
    formatMetric (some q87_25) MetricKind.percentage = "87.2" ∧
    ∀ k, formatMetric none k = "N/A" := by
  refine ⟨by decide, by decide, fun k => by cases k <;> rfl⟩

/-- A raw CSV row as parsed before date normalization: the date is still text. -/
structure RawRow where
  location : String
  dateText : String
  total_cases : Option ℚ
  total_deaths : Option ℚ
  total_deaths_per_million : Option ℚ
  people_fully_vaccinated_per_hundred : Option ℚ
deriving DecidableEq

/-- A raw row together with its parsed calendar date. -/
def toRecord (row : RawRow) (d : Nat) : Record :=
  { location := row.location, date := d, total_cases := row.total_cases,
    total_deaths := row.total_deaths,
    total_deaths_per_million := row.total_deaths_per_million,
    people_fully_vaccinated_per_hundred := row.people_fully_vaccinated_per_hundred }

/-- app.py:25 — `df["date"] = pd.to_datetime(df["date"])`: normalize every date
cell, failing (an exception caught by the candidate loop) on the first
unparseable one.  The date parser itself is an external library, passed in as
a parameter. -/
def normalizeDates (parseDate : String → Option Nat) : List RawRow → Except String (List Record)
  | [] => .ok []
  | row :: rest =>
    match parseDate row.dateText with
    | none => .error ("unparseable date " ++ row.dateText)
    | some d =>
      match normalizeDates parseDate rest with
      | .ok recs => .ok (toRecord row d :: recs)
      | .error e => .error e

/-- app.py:22-25 — one candidate attempt: HTTP fetch, status check and CSV
parse (all failure modes folded into the fetch parameter's error result),
followed by date normalization.  Any failure makes the candidate fail. -/
def attemptCandidate (fetch : String → Except String (List RawRow))
    (parseDate : String → Option Nat) (url : String) : Except String (List Record) :=
  match fetch url with
  | .error e => .error e
  | .ok raw => normalizeDates parseDate raw

/-- app.py:20-29 — the candidate loop: try each URL in order, remembering the
last error; return the first success, or raise carrying the last error after
exhausting the list. -/
def loadLoop (attempt : String → Except String (List Record)) :
    List String → Option String → Except (Option String) (List Record)
  | [], lastError => .error lastError
  | url :: rest, _lastError =>
    match attempt url with
    | .ok df => .ok df
    | .error e => loadLoop attempt rest (some e)

/-- app.py:14-29 — `load_data()`, with the network transport and the date
parser as parameters. -/
def load_data (fetch : String → Except String (List RawRow))
    (parseDate : String → Option Nat) (urls : List String) :
    Except (Option String) (List Record) :=
  loadLoop (attemptCandidate fetch parseDate) urls none

/-- Exhausted candidates: the loop raises the remembered error. -/
theorem loadLoop_nil (attempt : String → Except String (List Record)) (le : Option String) :
    loadLoop attempt [] le = .error le := rfl

/-- A failing head candidate: the loop records its error and moves on. -/
theorem loadLoop_cons_error (attempt : String → Except String (List Record))
    (u : String) (rest : List String) (le : Option String) (e : String)
    (h : attempt u = .error e) :
    loadLoop attempt (u :: rest) le = loadLoop attempt rest (some e) := by
  rw [loadLoop.eq_def]
  dsimp only
  rw [h]

/-- A succeeding head candidate: the loop returns its dataset at once. -/
theorem loadLoop_cons_ok (attempt : String → Except String (List Record))
    (u : String) (rest : List String) (le : Option String) (ds : List Record)
    (h : attempt u = .ok ds) :
    loadLoop attempt (u :: rest) le = .ok ds := by
  rw [loadLoop.eq_def]
  dsimp only
  rw [h]

/-- C3: if the first candidate fails for any reason and the second one fetches
and normalizes successfully, `load_data` returns the second candidate's parsed
dataset and surfaces no error. -/
theorem load_data_fallback (fetch : String → Except String (List RawRow))
    (parseDate : String → Option Nat) (u1 u2 : String) (e : String)
    (ds : List Record)
    (h1 : attemptCandidate fetch parseDate u1 = .error e)
    (h2 : attemptCandidate fetch parseDate u2 = .ok ds) :
    load_data fetch parseDate [u1, u2] = .ok ds := by
  rw [load_data, loadLoop_cons_error _ _ _ _ _ h1, loadLoop_cons_ok _ _ _ _ _ h2]

/-- If every candidate fails, the loop yields the last candidate's error,
whatever error was remembered on entry. -/
theorem loadLoop_all_fail (attempt : String → Except String (List Record)) :
    ∀ (urls : List String) (le : Option String) (u : String) (e : String),
      urls.getLast? = some u → attempt u = .error e →
      (∀ v ∈ urls, ∃ msg, attempt v = .error msg) →
      loadLoop attempt urls le = .error (some e) := by
  intro urls
  induction urls with
  | nil => intro le u e hlast _ _; cases hlast
  | cons u0 rest ih =>
    intro le u e hlast hu hall
    obtain ⟨e0, he0⟩ := hall u0 (List.mem_cons_self u0 rest)
    rw [loadLoop_cons_error _ _ _ _ _ he0]
    cases rest with
    | nil =>
      have hu0 : u0 = u := by
        rw [List.getLast?_singleton] at hlast
        exact Option.some.inj hlast
      subst hu0
      have hee : e = e0 := Except.error.inj (hu.symm.trans he0)
      rw [loadLoop_nil, hee]
    | cons u1 rest2 =>
      refine ih (some e0) u e ?_ hu ?_
      · rw [← hlast, List.getLast?_cons_cons]
      · intro v hv
        exact hall v (List.mem_cons_of_mem u0 hv)

/-- C4: when every candidate source fails, `load_data` fails, and the error it
carries is the failure of the last candidate tried. -/
theorem load_data_total_failure (fetch : String → Except String (List RawRow))
    (parseDate : String → Option Nat) (urls : List String) (u : String) (e : String)
    (hlast : urls.getLast? = some u)
    (hall : ∀ v ∈ urls, ∃ msg, attemptCandidate fetch parseDate v = .error msg)
    (hu : attemptCandidate fetch parseDate u = .error e) :
    load_data fetch parseDate urls = .error (some e) :=
  loadLoop_all_fail (attemptCandidate fetch parseDate) urls none u e hlast hu hall

/-- Transport stub for the loader witnesses: the primary URL times out, the
mirror returns one raw row. -/
def wFetch : String → Except String (List RawRow)
  | "primary" => .error "timeout"
  | "mirror" =>
      .ok [ { location := "India", dateText := "2021-01-02", total_cases := some 3,
              total_deaths := none, total_deaths_per_million := none,
              people_fully_vaccinated_per_hundred := none } ]
  | _ => .error "unknown host"

/-- Date parser stub for the loader witnesses. -/
def wParse : String → Option Nat
  | "2021-01-02" => some 2
  | _ => none

/-- C3 witness: with the concrete stubs, candidate 1 fails, candidate 2 loads. -/
theorem load_data_fallback_witness :
    attemptCandidate wFetch wParse "primary" = .error "timeout" ∧
    load_data wFetch wParse ["primary", "mirror"] =
      .ok [ { location := "India", date := 2, total_cases := some 3,
              total_deaths := none, total_deaths_per_million := none,
              people_fully_vaccinated_per_hundred := none } ] :=
  ⟨rfl, load_data_fallback wFetch wParse "primary" "mirror" "timeout" _ rfl rfl⟩

/-- C4 witness: with both candidates failing, the raised error carries the last
candidate's failure. -/
theorem load_data_total_failure_witness :
    load_data wFetch wParse ["primary", "unknown"] = .error (some "unknown host") :=
  load_data_total_failure wFetch wParse ["primary", "unknown"] "unknown" "unknown host"
    (by decide)
    (by intro v hv
        rcases List.mem_cons.mp hv with rfl | hv2
        · exact ⟨"timeout", rfl⟩
        · rcases List.mem_cons.mp hv2 with rfl | hv3
          · exact ⟨"unknown host", rfl⟩
          · cases hv3)
    rfl

/-- Everything the dashboard branch computes and hands to the presentation
layer (app.py:66-121): three formatted KPI strings, the time-series data, the
top-10 ranking, the scatter triples, and the 50-row preview. -/
structure DashboardOutput where
  kpi_total_cases : String
  kpi_total_deaths : String
  kpi_fully_vax : String
  caseSeries : List (Nat × Option ℚ)
  top10 : List Record
  scatter : List (ℚ × ℚ × String)
  preview : List Record
deriving DecidableEq

/-- Outcome of one render cycle: either the informational empty-result message
followed by `st.stop()` (no outputs computed), or the full dashboard. -/
inductive RenderResult where
  | emptyMessage (msg : String)
  | dashboard (out : DashboardOutput)
deriving DecidableEq

/-- app.py:63 — the informational message shown when the filter is empty. -/
def warnMsg : String :=
  "No data available for the selected filters. Try a different date range."

/-- app.py:53-121 — one render cycle after the dataset is loaded: normalize the
date range, filter, and either stop with the informational message on an empty
view or compute every downstream output. -/
def renderCycle (ds : Dataset) (country : String) (dr : DateRange) : RenderResult :=
  if (filterWithRange ds country dr).isEmpty then
    .emptyMessage warnMsg
  else
    .dashboard
      { kpi_total_cases :=
          formatMetric ((sortByDate (filterWithRange ds country dr)).getLastD dummyRec).total_cases
            MetricKind.integer
        kpi_total_deaths :=
          formatMetric ((sortByDate (filterWithRange ds country dr)).getLastD dummyRec).total_deaths
            MetricKind.integer
        kpi_fully_vax :=
          formatMetric
            ((sortByDate (filterWithRange ds country dr)).getLastD
              dummyRec).people_fully_vaccinated_per_hundred
            MetricKind.percentage
        caseSeries := (filterWithRange ds country dr).map (fun r => (r.date, r.total_cases))
        top10 := topNByMetric (latestPerLocation ds) Record.total_deaths_per_million 10 ["World"]
        scatter := pairedMetrics (latestPerLocation ds)
          Record.people_fully_vaccinated_per_hundred Record.total_deaths_per_million ["World"]
        preview := (filterWithRange ds country dr).take 50 }

/-- C7: an empty filtered view makes the render cycle surface the informational
message and stop — no dashboard output is computed; moreover a nonexistent
location, or a start date after the end date, always produces an empty view. -/
theorem renderCycle_empty_guard (ds : Dataset) (country : String) (dr : DateRange) :
    (filterWithRange ds country dr = [] →
      renderCycle ds country dr = .emptyMessage warnMsg) ∧
    ((∀ r ∈ ds, r.location ≠ country) → filterWithRange ds country dr = []) ∧
    ((normalizeRange dr).2 < (normalizeRange dr).1 → filterWithRange ds country dr = []) := by
  refine ⟨?_, ?_, ?_⟩
  · intro h
    rw [renderCycle, if_pos]
    rw [h]
    rfl
  · intro h
    rw [filterWithRange, filterByCountryAndRange, List.filter_eq_nil_iff]
    intro r hr hcontra
    simp only [Bool.and_eq_true, beq_iff_eq, decide_eq_true_eq] at hcontra
    exact h r hr hcontra.1.1
  · intro h
    rw [filterWithRange, filterByCountryAndRange, List.filter_eq_nil_iff]
    intro r _ hcontra
    simp only [Bool.and_eq_true, beq_iff_eq, decide_eq_true_eq] at hcontra
    exact Nat.not_le_of_lt (Nat.lt_of_lt_of_le h hcontra.1.2) hcontra.2

/-- C7 witness: a country absent from `exDs` yields the empty-result message. -/
theorem renderCycle_empty_guard_witness :
    renderCycle exDs "Wakanda" (DateRange.pair 3 7) = .emptyMessage warnMsg :=
  (renderCycle_empty_guard exDs "Wakanda" (DateRange.pair 3 7)).1 (by decide)

end CovidDash
